import Mathlib

set_option maxRecDepth 20000

/-!
Formal model of the GymIntel analysis core (repository 8bitdoe/GymIntel).

The definitions below are shallow embeddings of the Python source files
Backend/pose_service_yolo.py, Backend/pose_service.py,
Backend/scripts/step4_muscle_mapper.py and Backend/muscle_map.py.
Python floats are modelled as exact rationals; the single square root
(numpy std) is modelled over the reals.  Python dicts with string keys are
modelled as association lists with unique keys (first-match lookup,
update-in-place semantics).  Fields of the source data that no modelled
function ever reads (display strings, movement_type, the unused pose_rules
data) are omitted.
-/

namespace GymIntel

/-! ### String helpers (models of the Python str operations used) -/

/-- Model of Python str.lower for the ASCII names used by the repository. -/
def lowerStr (s : String) : String :=
  String.mk (s.data.map Char.toLower)

/-- Model of Python str.strip: drop whitespace from both ends. -/
def stripStr (s : String) : String :=
  String.mk (((s.data.dropWhile Char.isWhitespace).reverse.dropWhile
    Char.isWhitespace).reverse)

/-- Replace one character by another everywhere (Python str.replace with
single-character arguments). -/
def replaceChar (s : String) (a b : Char) : String :=
  String.mk (s.data.map (fun c => if c = a then b else c))

/-- Contiguous sublist test on character lists; empty needle matches. -/
def isSubListCL (n : List Char) : List Char → Bool
  | [] => n.isEmpty
  | c :: t => n.isPrefixOf (c :: t) || isSubListCL n t

/-- Model of the Python substring test, needle in hay. -/
def containsStr (hay needle : String) : Bool :=
  isSubListCL needle.data hay.data

/-- Split a character list on whitespace runs, dropping empty pieces
(model of Python str.split with no argument). -/
def wordsAux : List Char → List Char → List (List Char)
  | [], acc => if acc.isEmpty then [] else [acc.reverse]
  | c :: cs, acc =>
    if c.isWhitespace then
      (if acc.isEmpty then wordsAux cs [] else acc.reverse :: wordsAux cs [])
    else wordsAux cs (c :: acc)

/-- Model of Python str.split with no argument. -/
def splitWords (s : String) : List String :=
  (wordsAux s.data []).map String.mk

/-- Keep the first occurrence of every element (used to model Python set
semantics of word sets). -/
def dedupAux : List String → List String → List String
  | [], _ => []
  | x :: xs, seen =>
    if x ∈ seen then dedupAux xs seen else x :: dedupAux xs (x :: seen)

/-- Number of distinct shared words, the Python len(set(a) and set(b)). -/
def sharedWordCount (a b : List String) : Nat :=
  ((dedupAux a []).filter (fun w => w ∈ b)).length

/-! ### Association-list helpers (models of Python dict operations) -/

/-- Python d.get(k, v0) on a string-keyed dict of numbers. -/
def dictGetD (d : List (String × ℚ)) (k : String) (v0 : ℚ) : ℚ :=
  match d.find? (fun p => p.1 == k) with
  | some p => p.2
  | none => v0

/-- Python d[k] = v: overwrite in place if present, else append. -/
def dictSet (d : List (String × ℚ)) (k : String) (v : ℚ) : List (String × ℚ) :=
  if d.any (fun p => p.1 == k) then
    d.map (fun p => if p.1 == k then (p.1, v) else p)
  else d ++ [(k, v)]

/-- Python "if k in d: d[k] += dv" — add to an existing key, leave the
dict unchanged when the key is absent. -/
def dictAdd (d : List (String × ℚ)) (k : String) (dv : ℚ) : List (String × ℚ) :=
  d.map (fun p => if p.1 == k then (p.1, p.2 + dv) else p)

/-- Same for a string-valued dict (the alias lookup table). -/
def sdictSet (d : List (String × String)) (k v : String) : List (String × String) :=
  if d.any (fun p => p.1 == k) then
    d.map (fun p => if p.1 == k then (p.1, v) else p)
  else d ++ [(k, v)]

/-- First-match lookup in a string-valued dict. -/
def sdictFind (d : List (String × String)) (k : String) : Option String :=
  (d.find? (fun p => p.1 == k)).map Prod.snd

/-! ### List extrema (models of numpy min and max on nonempty arrays) -/

def listMin : List ℚ → ℚ
  | [] => 0
  | x :: xs => xs.foldl min x

def listMax : List ℚ → ℚ
  | [] => 0
  | x :: xs => xs.foldl max x

/-- Python int(q) for a rational: truncation toward zero. -/
def ratTrunc (q : ℚ) : ℤ := Int.tdiv q.num (q.den : ℤ)

/-! ### Rep counter of pose_service_yolo.py (YOLOPoseAnalyzer._count_reps)

The loop state carries the rep counter, the recorded inter-rep durations,
the hysteresis flag in_rep, the frame index of the last counted rep and
the remaining cooldown frames. -/

structure RepCountState where
  reps : Nat
  durs : List ℚ
  inRep : Bool
  repStart : Nat
  cooldown : ℤ
  deriving DecidableEq

/-- One iteration of the for-loop in YOLOPoseAnalyzer._count_reps.  During
cooldown the iteration only decrements the counter (the Python continue). -/
def repStep (fps thHigh thLow : ℚ) (minFrames : ℤ) (s : RepCountState)
    (iv : Nat × ℚ) : RepCountState :=
  if 0 < s.cooldown then { s with cooldown := s.cooldown - 1 }
  else if thHigh < iv.2 ∧ s.inRep = false then
    { reps := s.reps + 1
      durs :=
        if 0 < s.repStart then
          s.durs ++ [((iv.1 : ℚ) - (s.repStart : ℚ)) / fps]
        else s.durs
      inRep := true
      repStart := iv.1
      cooldown := minFrames }
  else if iv.2 < thLow then { s with inRep := false }
  else s

/-- YOLOPoseAnalyzer._count_reps: returns (rep_count, rep_durations).
Defaults in the source: threshold_high 0.7, threshold_low 0.3,
min_rep_duration 1.0. -/
def countReps (angleHistory : List ℚ) (fps thHigh thLow minRepDuration : ℚ) :
    Nat × List ℚ :=
  if angleHistory.length < 10 then (0, [])
  else
    let sigMin := listMin angleHistory
    let sigMax := listMax angleHistory
    if sigMax - sigMin < 20 then (0, [])
    else
      let normalized := angleHistory.map (fun v => (v - sigMin) / (sigMax - sigMin))
      let minFrames := ratTrunc (fps * minRepDuration)
      let final := normalized.enum.foldl (repStep fps thHigh thLow minFrames)
        ⟨0, [], false, 0, 0⟩
      (final.reps, final.durs)

/-! ### Rep counter of pose_service.py (PoseAnalyzer._count_reps)

This older counter has no minimum-sample guard; its cooldown is set and
then immediately decremented at the end of the same iteration, and the
below-threshold reset also runs during cooldown. -/

structure RepCountStateMP where
  reps : Nat
  inRep : Bool
  cooldown : ℤ
  deriving DecidableEq

/-- One iteration of the for-loop in PoseAnalyzer._count_reps. -/
def repStepMP (minRepFrames : ℤ) (s : RepCountStateMP) (val : ℚ) :
    RepCountStateMP :=
  let s1 :=
    if 7/10 < val ∧ s.inRep = false ∧ s.cooldown = 0 then
      { reps := s.reps + 1, inRep := true, cooldown := minRepFrames }
    else if val < 3/10 then { s with inRep := false }
    else s
  if 0 < s1.cooldown then { s1 with cooldown := s1.cooldown - 1 } else s1

/-- PoseAnalyzer._count_reps: hardcoded thresholds 0.7 and 0.3, minimum
rep duration 1.5 seconds. -/
def countRepsMP (signal : List ℚ) (fps : ℚ) : Nat :=
  if signal.isEmpty then 0
  else
    let sigMin := listMin signal
    let sigMax := listMax signal
    if sigMax - sigMin < 20 then 0
    else
      let normalized := signal.map (fun v => (v - sigMin) / (sigMax - sigMin))
      let minRepFrames := ratTrunc (fps * (3/2))
      (normalized.foldl (repStepMP minRepFrames) ⟨0, false, 0⟩).reps

/-! ### Synthetic test series for the rep counters

A triangle wave oscillating between 60 and 170 degrees with a 2 second
period sampled at 30 frames per second for 20 seconds (600 samples). -/

def syntheticAngle (i : Nat) : ℚ :=
  let r := i % 60
  if r ≤ 30 then 60 + 11 * (r : ℚ) / 3 else 170 - 11 * ((r : ℚ) - 30) / 3

def syntheticSeries : List ℚ :=
  (List.range 600).map syntheticAngle

/-! ### Tempo consistency (pose_service_yolo.py analyze_segment)

numpy std is the population standard deviation, the square root of the
mean squared deviation; the source divides by the mean plus 1e-8. -/

def listMean (l : List ℚ) : ℚ := l.sum / (l.length : ℚ)

def variancePop (l : List ℚ) : ℚ :=
  (l.map (fun x => (x - listMean l) ^ 2)).sum / (l.length : ℚ)

noncomputable def stdPop (l : List ℚ) : ℝ :=
  Real.sqrt ((variancePop l : ℚ) : ℝ)

/-- The tempo_consistency computation of analyze_segment: the clamped
value 1 - std / (mean + 1e-8) when more than one duration was recorded,
else 1. -/
noncomputable def tempoConsistency (durations : List ℚ) : ℝ :=
  if 1 < durations.length then
    max 0 (min 1 (1 - stdPop durations /
      ((listMean durations : ℝ) + 1 / 100000000)))
  else 1

/-- The formula stated by the specification for the tempo sub-score:
1 - std / mean, clamped, without the 1e-8 guard in the denominator. -/
noncomputable def tempoSpecClaim (durations : List ℚ) : ℝ :=
  if 1 < durations.length then
    max 0 (min 1 (1 - stdPop durations / (listMean durations : ℝ)))
  else 1

/-! ### Quality score (pose_service_yolo.py _calculate_quality_score)

The source starts from 1.0, applies the knee ROM rule when the lowered
exercise name contains squat or lunge, the elbow rule when it contains
press or curl, then the symmetry and tempo rules, and clamps to
[0.5, 1.5]. -/

def qualityScore (exerciseName : String) (minAngles maxAngles : List (String × ℚ))
    (symmetryScore tempoScore : ℚ) : ℚ :=
  let exerciseLower := lowerStr exerciseName
  let avgKneeMin :=
    (dictGetD minAngles "left_knee" 180 + dictGetD minAngles "right_knee" 180) / 2
  let avgElbowMax :=
    (dictGetD maxAngles "left_elbow" 0 + dictGetD maxAngles "right_elbow" 0) / 2
  let s0 : ℚ := 1
  let s1 :=
    if containsStr exerciseLower "squat" || containsStr exerciseLower "lunge" then
      if avgKneeMin < 80 then s0 + 0.2
      else if avgKneeMin < 95 then s0 + 0.1
      else if 115 < avgKneeMin then s0 - 0.2
      else s0
    else s0
  let s2 :=
    if containsStr exerciseLower "press" || containsStr exerciseLower "curl" then
      if 165 < avgElbowMax then s1 + 0.1
      else if avgElbowMax < 140 then s1 - 0.15
      else s1
    else s1
  let s3 :=
    if 0.9 < symmetryScore then s2 + 0.1
    else if symmetryScore < 0.7 then s2 - 0.15
    else s2
  let s4 :=
    if 0.8 < tempoScore then s3 + 0.05
    else if tempoScore < 0.5 then s3 - 0.1
    else s3
  max 0.5 (min 1.5 s4)

/-- The knee ROM delta as the specification describes it after amendment:
+0.2 below 80, +0.1 below 95, -0.2 above 115 for squat or lunge patterns. -/
def romKneeDelta (squatLike : Bool) (avgKneeMin : ℚ) : ℚ :=
  if squatLike then
    if avgKneeMin < 80 then 0.2
    else if avgKneeMin < 95 then 0.1
    else if 115 < avgKneeMin then -0.2
    else 0
  else 0

/-- The elbow ROM delta of the specification: +0.1 above 165, -0.15 below
140 for press or curl patterns. -/
def romElbowDelta (pressLike : Bool) (avgElbowMax : ℚ) : ℚ :=
  if pressLike then
    if 165 < avgElbowMax then 0.1
    else if avgElbowMax < 140 then -0.15
    else 0
  else 0

/-- Symmetry delta of the specification: +0.1 above 0.9, -0.15 below 0.7. -/
def symmetryDelta (symmetryScore : ℚ) : ℚ :=
  if 0.9 < symmetryScore then 0.1
  else if symmetryScore < 0.7 then -0.15
  else 0

/-- Tempo delta of the specification: +0.05 above 0.8, -0.1 below 0.5. -/
def tempoDelta (tempoScore : ℚ) : ℚ :=
  if 0.8 < tempoScore then 0.05
  else if tempoScore < 0.5 then -0.1
  else 0

/-- The amended specification formula: 1.0 plus the four deltas, the sum
clamped to [0.5, 1.5]. -/
def qualityScoreSpec (exerciseName : String) (minAngles maxAngles : List (String × ℚ))
    (symmetryScore tempoScore : ℚ) : ℚ :=
  let exerciseLower := lowerStr exerciseName
  let avgKneeMin :=
    (dictGetD minAngles "left_knee" 180 + dictGetD minAngles "right_knee" 180) / 2
  let avgElbowMax :=
    (dictGetD maxAngles "left_elbow" 0 + dictGetD maxAngles "right_elbow" 0) / 2
  let squatLike := containsStr exerciseLower "squat" || containsStr exerciseLower "lunge"
  let pressLike := containsStr exerciseLower "press" || containsStr exerciseLower "curl"
  max 0.5 (min 1.5
    (1 + romKneeDelta squatLike avgKneeMin + romElbowDelta pressLike avgElbowMax
      + symmetryDelta symmetryScore + tempoDelta tempoScore))

/-- The formula exactly as the claim states it, with only the two knee
thresholds 80 and 115 (no +0.1 band between 80 and 95). -/
def qualityScoreClaimed (exerciseName : String) (minAngles maxAngles : List (String × ℚ))
    (symmetryScore tempoScore : ℚ) : ℚ :=
  let exerciseLower := lowerStr exerciseName
  let avgKneeMin :=
    (dictGetD minAngles "left_knee" 180 + dictGetD minAngles "right_knee" 180) / 2
  let avgElbowMax :=
    (dictGetD maxAngles "left_elbow" 0 + dictGetD maxAngles "right_elbow" 0) / 2
  let squatLike := containsStr exerciseLower "squat" || containsStr exerciseLower "lunge"
  let pressLike := containsStr exerciseLower "press" || containsStr exerciseLower "curl"
  let kneeDelta : ℚ :=
    if squatLike then
      if avgKneeMin < 80 then 0.2 else if 115 < avgKneeMin then -0.2 else 0
    else 0
  max 0.5 (min 1.5
    (1 + kneeDelta + romElbowDelta pressLike avgElbowMax
      + symmetryDelta symmetryScore + tempoDelta tempoScore))

/-! ### Exercise database of step4_muscle_mapper.py

One record per EXERCISE_DATABASE entry, in source order.  The fields
movement_type and pose_rules are never read by the modelled functions and
are omitted. -/

structure ExerciseEntry where
  name : String
  aliases : List String
  category : String
  primary : List (String × ℚ)
  secondary : List (String × ℚ)
  modifiers : List (String × List (String × ℚ)) := []

def exerciseDatabase : List ExerciseEntry := [
  { name := "barbell squat"
    aliases := ["squat", "back squat", "barbell back squat", "bb squat"]
    category := "legs"
    primary := [("quads", 0.9), ("glutes", 0.8)]
    secondary := [("hamstrings", 0.4), ("lower_back", 0.5), ("abs", 0.4), ("calves", 0.2)]
    modifiers := [
      ("high_bar", [("quads", 0.05)]),
      ("low_bar", [("glutes", 0.05), ("lower_back", 0.05), ("quads", -0.05)]),
      ("wide_stance", [("glutes", 0.1), ("adductors", 0.15), ("quads", -0.05)]),
      ("narrow_stance", [("quads", 0.1), ("glutes", -0.05)]),
      ("deep", [("glutes", 0.1), ("hamstrings", 0.05)]),
      ("parallel", []),
      ("shallow", [("quads", 0.05), ("glutes", -0.15)])] },
  { name := "front squat"
    aliases := ["barbell front squat", "front squats"]
    category := "legs"
    primary := [("quads", 0.95), ("glutes", 0.7)]
    secondary := [("abs", 0.5), ("upper_back", 0.4), ("lower_back", 0.3)] },
  { name := "deadlift"
    aliases := ["conventional deadlift", "barbell deadlift", "bb deadlift"]
    category := "legs"
    primary := [("lower_back", 0.9), ("glutes", 0.85), ("hamstrings", 0.8)]
    secondary := [("quads", 0.4), ("traps", 0.5), ("forearms", 0.6), ("lats", 0.3), ("abs", 0.4)]
    modifiers := [
      ("sumo", [("glutes", 0.1), ("adductors", 0.25), ("lower_back", -0.15), ("quads", 0.15)]),
      ("conventional", [])] },
  { name := "romanian deadlift"
    aliases := ["rdl", "stiff leg deadlift", "sldl"]
    category := "legs"
    primary := [("hamstrings", 0.95), ("glutes", 0.85), ("lower_back", 0.7)]
    secondary := [("forearms", 0.4), ("lats", 0.2)] },
  { name := "leg press"
    aliases := ["machine leg press", "45 degree leg press"]
    category := "legs"
    primary := [("quads", 0.9), ("glutes", 0.6)]
    secondary := [("hamstrings", 0.3), ("calves", 0.2)]
    modifiers := [
      ("high_feet", [("glutes", 0.15), ("hamstrings", 0.1), ("quads", -0.1)]),
      ("low_feet", [("quads", 0.1), ("glutes", -0.1)]),
      ("wide_stance", [("adductors", 0.2), ("glutes", 0.1)])] },
  { name := "lunges"
    aliases := ["walking lunges", "forward lunges", "lunge"]
    category := "legs"
    primary := [("quads", 0.85), ("glutes", 0.8)]
    secondary := [("hamstrings", 0.4), ("calves", 0.3), ("abs", 0.3)] },
  { name := "bulgarian split squat"
    aliases := ["split squat", "rear foot elevated split squat"]
    category := "legs"
    primary := [("quads", 0.9), ("glutes", 0.85)]
    secondary := [("hamstrings", 0.4), ("abs", 0.35)] },
  { name := "hip thrust"
    aliases := ["barbell hip thrust", "glute bridge", "hip bridge"]
    category := "legs"
    primary := [("glutes", 0.95), ("hamstrings", 0.5)]
    secondary := [("lower_back", 0.2), ("abs", 0.3)] },
  { name := "leg extension"
    aliases := ["leg extensions", "quad extension"]
    category := "legs"
    primary := [("quads", 0.95)]
    secondary := [] },
  { name := "leg curl"
    aliases := ["lying leg curl", "seated leg curl", "hamstring curl"]
    category := "legs"
    primary := [("hamstrings", 0.95)]
    secondary := [("calves", 0.2)] },
  { name := "calf raise"
    aliases := ["standing calf raise", "seated calf raise", "calf raises"]
    category := "legs"
    primary := [("calves", 0.95)]
    secondary := [] },
  { name := "bench press"
    aliases := ["barbell bench press", "flat bench", "bb bench"]
    category := "push"
    primary := [("chest", 0.9), ("triceps", 0.7), ("front_delts", 0.5)]
    secondary := [("lats", 0.2)]
    modifiers := [
      ("wide_grip", [("chest", 0.1), ("triceps", -0.1)]),
      ("close_grip", [("triceps", 0.2), ("chest", -0.15)]),
      ("incline", [("upper_chest", 0.25), ("front_delts", 0.15), ("chest", -0.1)]),
      ("decline", [("lower_chest", 0.2), ("front_delts", -0.1)])] },
  { name := "dumbbell bench press"
    aliases := ["db bench", "dumbbell press"]
    category := "push"
    primary := [("chest", 0.9), ("triceps", 0.6), ("front_delts", 0.5)]
    secondary := []
    modifiers := [
      ("incline", [("upper_chest", 0.25), ("front_delts", 0.15), ("chest", -0.1)])] },
  { name := "overhead press"
    aliases := ["ohp", "shoulder press", "military press", "barbell overhead press"]
    category := "push"
    primary := [("front_delts", 0.9), ("side_delts", 0.7), ("triceps", 0.6)]
    secondary := [("upper_chest", 0.3), ("traps", 0.4), ("abs", 0.4)] },
  { name := "dumbbell shoulder press"
    aliases := ["db shoulder press", "seated shoulder press"]
    category := "push"
    primary := [("front_delts", 0.9), ("side_delts", 0.75), ("triceps", 0.55)]
    secondary := [("traps", 0.35)] },
  { name := "push up"
    aliases := ["pushup", "push-up", "press up"]
    category := "push"
    primary := [("chest", 0.8), ("triceps", 0.7), ("front_delts", 0.5)]
    secondary := [("abs", 0.4)]
    modifiers := [
      ("wide", [("chest", 0.1), ("triceps", -0.1)]),
      ("diamond", [("triceps", 0.2), ("chest", -0.1)]),
      ("incline", [("lower_chest", 0.1)]),
      ("decline", [("upper_chest", 0.15), ("front_delts", 0.1)])] },
  { name := "dips"
    aliases := ["chest dips", "tricep dips", "parallel bar dips"]
    category := "push"
    primary := [("triceps", 0.85), ("chest", 0.75), ("front_delts", 0.5)]
    secondary := []
    modifiers := [
      ("chest_focus", [("chest", 0.15), ("triceps", -0.1)]),
      ("tricep_focus", [("triceps", 0.1), ("chest", -0.1)])] },
  { name := "lateral raise"
    aliases := ["side raise", "lateral raises", "side lateral raise"]
    category := "push"
    primary := [("side_delts", 0.95)]
    secondary := [("traps", 0.3), ("front_delts", 0.2)] },
  { name := "front raise"
    aliases := ["front delt raise", "front raises"]
    category := "push"
    primary := [("front_delts", 0.95)]
    secondary := [("side_delts", 0.2)] },
  { name := "tricep pushdown"
    aliases := ["cable pushdown", "tricep extension", "pushdowns"]
    category := "push"
    primary := [("triceps", 0.95)]
    secondary := [] },
  { name := "skull crusher"
    aliases := ["lying tricep extension", "skull crushers"]
    category := "push"
    primary := [("triceps", 0.95)]
    secondary := [] },
  { name := "cable fly"
    aliases := ["cable flys", "cable crossover", "pec fly"]
    category := "push"
    primary := [("chest", 0.9)]
    secondary := [("front_delts", 0.3)]
    modifiers := [
      ("high_to_low", [("lower_chest", 0.2)]),
      ("low_to_high", [("upper_chest", 0.2)])] },
  { name := "pull up"
    aliases := ["pullup", "pull-up", "chin up"]
    category := "pull"
    primary := [("lats", 0.9), ("biceps", 0.7)]
    secondary := [("rear_delts", 0.4), ("forearms", 0.5), ("abs", 0.3)]
    modifiers := [
      ("wide_grip", [("lats", 0.1), ("biceps", -0.1)]),
      ("chin_up", [("biceps", 0.2), ("lats", -0.1)]),
      ("neutral_grip", [])] },
  { name := "lat pulldown"
    aliases := ["cable pulldown", "wide grip pulldown"]
    category := "pull"
    primary := [("lats", 0.9), ("biceps", 0.6)]
    secondary := [("rear_delts", 0.4), ("forearms", 0.3)]
    modifiers := [
      ("wide_grip", [("lats", 0.1)]),
      ("close_grip", [("biceps", 0.1), ("lats", -0.05)])] },
  { name := "barbell row"
    aliases := ["bent over row", "bb row", "pendlay row"]
    category := "pull"
    primary := [("lats", 0.85), ("upper_back", 0.8), ("rear_delts", 0.6)]
    secondary := [("biceps", 0.5), ("lower_back", 0.5), ("forearms", 0.4)]
    modifiers := [
      ("underhand", [("biceps", 0.15), ("lats", 0.05)]),
      ("overhand", [])] },
  { name := "dumbbell row"
    aliases := ["db row", "one arm row", "single arm row"]
    category := "pull"
    primary := [("lats", 0.85), ("upper_back", 0.75), ("rear_delts", 0.55)]
    secondary := [("biceps", 0.5), ("forearms", 0.4)] },
  { name := "cable row"
    aliases := ["seated cable row", "low row", "seated row"]
    category := "pull"
    primary := [("lats", 0.8), ("upper_back", 0.75), ("rear_delts", 0.5)]
    secondary := [("biceps", 0.5), ("forearms", 0.35)] },
  { name := "t-bar row"
    aliases := ["t bar row", "landmine row"]
    category := "pull"
    primary := [("lats", 0.85), ("upper_back", 0.8)]
    secondary := [("biceps", 0.5), ("rear_delts", 0.5), ("lower_back", 0.4)] },
  { name := "bicep curl"
    aliases := ["barbell curl", "dumbbell curl", "curls", "bb curl", "db curl"]
    category := "pull"
    primary := [("biceps", 0.95)]
    secondary := [("forearms", 0.4)] },
  { name := "hammer curl"
    aliases := ["hammer curls", "neutral grip curl"]
    category := "pull"
    primary := [("biceps", 0.85), ("forearms", 0.6)]
    secondary := [] },
  { name := "face pull"
    aliases := ["face pulls", "rope face pull"]
    category := "pull"
    primary := [("rear_delts", 0.85), ("upper_back", 0.7)]
    secondary := [("rotator_cuff", 0.5), ("traps", 0.4)] },
  { name := "reverse fly"
    aliases := ["rear delt fly", "reverse pec deck"]
    category := "pull"
    primary := [("rear_delts", 0.9), ("upper_back", 0.5)]
    secondary := [("traps", 0.3)] },
  { name := "shrug"
    aliases := ["barbell shrug", "dumbbell shrug", "shrugs"]
    category := "pull"
    primary := [("traps", 0.95)]
    secondary := [("forearms", 0.3)] },
  { name := "plank"
    aliases := ["front plank", "elbow plank"]
    category := "core"
    primary := [("abs", 0.85), ("transverse_abs", 0.9)]
    secondary := [("obliques", 0.5), ("lower_back", 0.4), ("front_delts", 0.3)] },
  { name := "crunch"
    aliases := ["crunches", "ab crunch"]
    category := "core"
    primary := [("abs", 0.9)]
    secondary := [("obliques", 0.3)] },
  { name := "leg raise"
    aliases := ["hanging leg raise", "lying leg raise", "leg raises"]
    category := "core"
    primary := [("abs", 0.85), ("hip_flexors", 0.7)]
    secondary := [("obliques", 0.4)] },
  { name := "russian twist"
    aliases := ["russian twists", "seated twist"]
    category := "core"
    primary := [("obliques", 0.9), ("abs", 0.6)]
    secondary := [("hip_flexors", 0.3)] },
  { name := "cable woodchop"
    aliases := ["wood chop", "woodchop"]
    category := "core"
    primary := [("obliques", 0.85), ("abs", 0.7)]
    secondary := [("front_delts", 0.3)] },
  { name := "ab wheel"
    aliases := ["ab wheel rollout", "ab roller"]
    category := "core"
    primary := [("abs", 0.9), ("transverse_abs", 0.85)]
    secondary := [("lats", 0.4), ("front_delts", 0.35), ("lower_back", 0.3)] }]

/-- The 24 muscle keys of the step4 MUSCLE_GROUPS dict, in source order. -/
def muscleKeys : List String :=
  ["chest", "upper_chest", "lower_chest",
   "lats", "upper_back", "lower_back", "traps",
   "front_delts", "side_delts", "rear_delts", "rotator_cuff",
   "biceps", "triceps", "forearms",
   "abs", "obliques", "transverse_abs",
   "quads", "hamstrings", "glutes", "adductors", "abductors", "calves",
   "hip_flexors"]

/-- The step4 MUSCLE_CATEGORIES dict. -/
def muscleCategories : List (String × List String) :=
  [("push", ["chest", "upper_chest", "lower_chest", "front_delts", "side_delts", "triceps"]),
   ("pull", ["lats", "upper_back", "traps", "rear_delts", "biceps", "forearms"]),
   ("legs", ["quads", "hamstrings", "glutes", "adductors", "abductors", "calves", "hip_flexors"]),
   ("core", ["abs", "obliques", "transverse_abs", "lower_back"])]

/-! ### MuscleMapper (step4_muscle_mapper.py) -/

/-- The alias lookup built by _build_alias_lookup: for every entry, the
lowered name and every lowered alias map to the entry name; later
duplicate keys overwrite earlier ones (Python dict assignment). -/
def aliasMap : List (String × String) :=
  exerciseDatabase.foldl
    (fun acc e =>
      (e.aliases.foldl (fun acc2 a => sdictSet acc2 (lowerStr a) e.name)
        (sdictSet acc (lowerStr e.name) e.name)))
    []

/-- _normalize_name: lower, strip, then map hyphens and underscores to
spaces. -/
def normalizeName (name : String) : String :=
  replaceChar (replaceChar (stripStr (lowerStr name)) '-' ' ') '_' ' '

/-- The token-overlap pass of _find_exercise: keep the entry with the
strictly largest number of shared words, scanning the alias map in order. -/
def bestTokenMatch (queryWords : List String) : Option String × Nat :=
  aliasMap.foldl
    (fun best p =>
      let overlap := sharedWordCount queryWords (splitWords p.1)
      if best.2 < overlap then (some p.2, overlap) else best)
    (none, 0)

/-- _find_exercise: exact alias-map lookup, then first substring match in
alias-map order, then the token-overlap fallback requiring at least one
shared word. -/
def findExercise (name : String) : Option String :=
  let normalized := normalizeName name
  match sdictFind aliasMap normalized with
  | some e => some e
  | none =>
    match aliasMap.find?
        (fun p => containsStr p.1 normalized || containsStr normalized p.1) with
    | some p => some p.2
    | none =>
      let best := bestTokenMatch (splitWords normalized)
      if 1 ≤ best.2 then best.1 else none

/-- The pose-metrics argument of _detect_modifiers, quotiented to what the
function reads: none models a missing or falsy pose_metrics dict or a
missing, falsy or min-less knee_rom entry; some mn models an extracted
minimum knee angle mn (Python treats mn = 0 as falsy, which the guards
below reproduce). -/
def PoseKneeMin : Type := Option ℚ

/-- The keyword table of _detect_modifiers, in source order; the wide and
narrow entries depend on whether the variation text mentions stance. -/
def modifierKeywords (varLower : String) : List (String × String) :=
  [("wide", if containsStr varLower "stance" then "wide_stance" else "wide_grip"),
   ("narrow", if containsStr varLower "stance" then "narrow_stance" else "close_grip"),
   ("close", "close_grip"),
   ("sumo", "sumo"),
   ("conventional", "conventional"),
   ("incline", "incline"),
   ("decline", "decline"),
   ("high bar", "high_bar"),
   ("low bar", "low_bar"),
   ("underhand", "underhand"),
   ("overhand", "overhand"),
   ("chin", "chin_up"),
   ("diamond", "diamond"),
   ("deep", "deep")]

/-- _detect_modifiers: keyword hits in the lowered variation text (an
empty variation string is falsy and skipped), then the knee-ROM rule
(below 70 adds deep, above 100 adds shallow, a falsy minimum adds
nothing). -/
def detectModifiers (variation : Option String) (poseMetrics : Option PoseKneeMin) :
    List String :=
  let fromVariation :=
    match variation with
    | none => []
    | some v =>
      if v = "" then []
      else
        let varLower := lowerStr v
        ((modifierKeywords varLower).filter
          (fun p => containsStr varLower p.1)).map Prod.snd
  let fromPose :=
    match poseMetrics with
    | none => []
    | some kneeMin =>
      match kneeMin with
      | none => []
      | some mn =>
        if mn ≠ 0 ∧ mn < 70 then ["deep"]
        else if mn ≠ 0 ∧ 100 < mn then ["shallow"]
        else []
  fromVariation ++ fromPose

/-- The MuscleActivation dataclass of step4_muscle_mapper.py. -/
structure MuscleActivationR where
  exerciseName : String
  matchedExercise : String
  variation : Option String := none
  durationSeconds : ℚ := 0
  activation : List (String × ℚ) := []
  primaryMuscles : List String := []
  secondaryMuscles : List String := []
  confidence : ℚ := 1
  modifiersApplied : List String := []
  deriving DecidableEq

/-- Apply one detected modifier inside get_activation: when the exercise
has it, record it and add each delta with get-default-0 semantics. -/
def applyModifier (available : List (String × List (String × ℚ)))
    (st : List (String × ℚ) × List String) (modifier : String) :
    List (String × ℚ) × List String :=
  match available.find? (fun p => p.1 == modifier) with
  | none => st
  | some p =>
    (p.2.foldl (fun act d => dictSet act d.1 (dictGetD act d.1 0 + d.2)) st.1,
     st.2 ++ [modifier])

/-- The final clamp of get_activation: every value to [0, 1]. -/
def clampActivation (l : List (String × ℚ)) : List (String × ℚ) :=
  l.map (fun p => (p.1, max 0 (min 1 p.2)))

/-- The body of get_activation for a resolved entry: base activation from
the primary and secondary dicts, then the detected modifiers the entry
defines, returning the unclamped activation and the applied-modifier
list. -/
def activationFromEntry (entry : ExerciseEntry) (variation : Option String)
    (poseMetrics : Option PoseKneeMin) : List (String × ℚ) × List String :=
  let act0 := entry.primary.foldl (fun a p => dictSet a p.1 p.2) []
  let act1 := entry.secondary.foldl (fun a p => dictSet a p.1 p.2) act0
  let modifiers := detectModifiers variation poseMetrics
  modifiers.foldl (applyModifier entry.modifiers) (act1, [])

/-- get_activation: resolve the name; on failure return the unknown
sentinel with confidence 0; otherwise build the activation for the
matched entry and clamp every value to [0, 1]. -/
def getActivation (exerciseName : String) (variation : Option String := none)
    (poseMetrics : Option PoseKneeMin := none) (durationSeconds : ℚ := 0) :
    MuscleActivationR :=
  match findExercise exerciseName with
  | none =>
    { exerciseName := exerciseName
      matchedExercise := "unknown"
      activation := [("unknown", 1)]
      confidence := 0 }
  | some matched =>
    let entry := (exerciseDatabase.find? (fun e => e.name == matched)).getD
      { name := matched, aliases := [], category := "", primary := [], secondary := [] }
    let applied := activationFromEntry entry variation poseMetrics
    { exerciseName := exerciseName
      matchedExercise := matched
      variation := variation
      durationSeconds := durationSeconds
      activation := clampActivation applied.1
      primaryMuscles := entry.primary.map Prod.fst
      secondaryMuscles := entry.secondary.map Prod.fst
      confidence := 1
      modifiersApplied := applied.2 }

/-- The weighted accumulation step of aggregate_workout: weight by
duration floored at 30 seconds, normalized to minutes, and add each
activation value into the keys of the totals dict. -/
def addExercise (total : List (String × ℚ)) (e : MuscleActivationR) :
    List (String × ℚ) :=
  let weight := max e.durationSeconds 30 / 60
  e.activation.foldl (fun t p => dictAdd t p.1 (p.2 * weight)) total

/-- aggregate_workout: sum weighted activations over the fixed muscle
keys, then (when normalize is set) divide every total by the maximum
total when that maximum is positive. -/
def aggregateWorkout (exercises : List MuscleActivationR) (normalize : Bool := true) :
    List (String × ℚ) :=
  let total := exercises.foldl addExercise (muscleKeys.map (fun m => (m, (0 : ℚ))))
  if normalize then
    let maxVal := listMax (total.map Prod.snd)
    if 0 < maxVal then total.map (fun p => (p.1, p.2 / maxVal)) else total
  else total

/-- The result of analyze_balance, keeping the category totals and the
type tags of the imbalance records (the display strings and
recommendation texts are presentation data and are omitted). -/
structure BalanceAnalysis where
  categoryTotals : List (String × ℚ)
  imbalances : List String
  deriving DecidableEq

/-- analyze_balance: per-category sums of the workout totals, then the
push and pull comparison with thresholds 1.5 and 0.67 guarded by both
totals being positive. -/
def analyzeBalance (workoutTotals : List (String × ℚ)) : BalanceAnalysis :=
  let categoryTotals := muscleCategories.map
    (fun c => (c.1, (c.2.map (fun m => dictGetD workoutTotals m 0)).sum))
  let push := dictGetD categoryTotals "push" 0
  let pull := dictGetD categoryTotals "pull" 0
  let imbalances :=
    if 0 < push ∧ 0 < pull then
      if 1.5 < push / pull then ["push_dominant"]
      else if push / pull < 0.67 then ["pull_dominant"]
      else []
    else []
  { categoryTotals := categoryTotals, imbalances := imbalances }

/-! ### muscle_map.py: catalog and session aggregation -/

/-- The MuscleActivation TypedDict of muscle_map.py. -/
structure MuscleActivationMM where
  primary : List (String × ℚ)
  secondary : List (String × ℚ)
  deriving DecidableEq

/-- The 16 muscle groups of muscle_map.py, in source order. -/
def muscleGroupsMM : List String :=
  ["chest", "shoulders", "triceps", "biceps", "forearms",
   "lats", "traps", "rhomboids", "lower_back",
   "core", "obliques",
   "quadriceps", "hamstrings", "glutes", "calves", "hip_flexors"]

/-- The category sets of muscle_map.py (Python sets, written here in
source literal order; only sums and sizes of these are ever used). -/
def pushMusclesMM : List String := ["chest", "shoulders", "triceps"]

def pullMusclesMM : List String := ["lats", "traps", "rhomboids", "biceps", "forearms"]

def legMusclesMM : List String := ["quadriceps", "hamstrings", "glutes", "calves", "hip_flexors"]

def coreMusclesMM : List String := ["core", "obliques", "lower_back"]

/-- EXERCISE_MUSCLE_MAP of muscle_map.py, in source order. -/
def exerciseMuscleMap : List (String × MuscleActivationMM) := [
  ("bench press",
   { primary := [("chest", 0.45), ("triceps", 0.30)]
     secondary := [("shoulders", 0.20), ("core", 0.10)] }),
  ("incline bench press",
   { primary := [("chest", 0.40), ("shoulders", 0.30)]
     secondary := [("triceps", 0.25), ("core", 0.10)] }),
  ("dumbbell press",
   { primary := [("chest", 0.45), ("triceps", 0.25)]
     secondary := [("shoulders", 0.20), ("core", 0.15)] }),
  ("push-up",
   { primary := [("chest", 0.40), ("triceps", 0.30)]
     secondary := [("shoulders", 0.20), ("core", 0.25)] }),
  ("chest fly",
   { primary := [("chest", 0.50)]
     secondary := [("shoulders", 0.15), ("biceps", 0.10)] }),
  ("cable crossover",
   { primary := [("chest", 0.45)]
     secondary := [("shoulders", 0.15), ("core", 0.10)] }),
  ("pull-up",
   { primary := [("lats", 0.45), ("biceps", 0.30)]
     secondary := [("rhomboids", 0.20), ("forearms", 0.20), ("core", 0.15)] }),
  ("lat pulldown",
   { primary := [("lats", 0.45), ("biceps", 0.25)]
     secondary := [("rhomboids", 0.15), ("forearms", 0.15)] }),
  ("barbell row",
   { primary := [("lats", 0.40), ("rhomboids", 0.35), ("biceps", 0.25)]
     secondary := [("lower_back", 0.20), ("forearms", 0.15), ("core", 0.15)] }),
  ("dumbbell row",
   { primary := [("lats", 0.40), ("rhomboids", 0.30)]
     secondary := [("biceps", 0.25), ("forearms", 0.15), ("core", 0.10)] }),
  ("cable row",
   { primary := [("lats", 0.40), ("rhomboids", 0.30)]
     secondary := [("biceps", 0.25), ("lower_back", 0.15)] }),
  ("face pull",
   { primary := [("rhomboids", 0.40), ("shoulders", 0.35)]
     secondary := [("traps", 0.20), ("biceps", 0.15)] }),
  ("deadlift",
   { primary := [("hamstrings", 0.35), ("glutes", 0.35), ("lower_back", 0.35)]
     secondary := [("quadriceps", 0.20), ("traps", 0.20), ("forearms", 0.25), ("core", 0.25)] }),
  ("overhead press",
   { primary := [("shoulders", 0.50), ("triceps", 0.30)]
     secondary := [("chest", 0.15), ("core", 0.20), ("traps", 0.15)] }),
  ("lateral raise",
   { primary := [("shoulders", 0.50)]
     secondary := [("traps", 0.15)] }),
  ("front raise",
   { primary := [("shoulders", 0.45)]
     secondary := [("chest", 0.15), ("core", 0.10)] }),
  ("reverse fly",
   { primary := [("shoulders", 0.40), ("rhomboids", 0.30)]
     secondary := [("traps", 0.20)] }),
  ("shrug",
   { primary := [("traps", 0.50)]
     secondary := [("shoulders", 0.15), ("forearms", 0.15)] }),
  ("bicep curl",
   { primary := [("biceps", 0.50)]
     secondary := [("forearms", 0.20)] }),
  ("hammer curl",
   { primary := [("biceps", 0.40), ("forearms", 0.30)]
     secondary := [] }),
  ("tricep pushdown",
   { primary := [("triceps", 0.50)]
     secondary := [("shoulders", 0.10)] }),
  ("tricep extension",
   { primary := [("triceps", 0.50)]
     secondary := [("shoulders", 0.10)] }),
  ("skull crusher",
   { primary := [("triceps", 0.50)]
     secondary := [("shoulders", 0.15)] }),
  ("dip",
   { primary := [("triceps", 0.40), ("chest", 0.35)]
     secondary := [("shoulders", 0.25), ("core", 0.10)] }),
  ("squat",
   { primary := [("quadriceps", 0.45), ("glutes", 0.40)]
     secondary := [("hamstrings", 0.25), ("core", 0.25), ("lower_back", 0.15)] }),
  ("front squat",
   { primary := [("quadriceps", 0.50), ("glutes", 0.35)]
     secondary := [("core", 0.30), ("upper_back", 0.15)] }),
  ("leg press",
   { primary := [("quadriceps", 0.45), ("glutes", 0.35)]
     secondary := [("hamstrings", 0.20)] }),
  ("lunge",
   { primary := [("quadriceps", 0.40), ("glutes", 0.40)]
     secondary := [("hamstrings", 0.25), ("core", 0.20), ("calves", 0.10)] }),
  ("leg extension",
   { primary := [("quadriceps", 0.55)]
     secondary := [] }),
  ("leg curl",
   { primary := [("hamstrings", 0.55)]
     secondary := [("calves", 0.15)] }),
  ("romanian deadlift",
   { primary := [("hamstrings", 0.45), ("glutes", 0.40)]
     secondary := [("lower_back", 0.25), ("core", 0.15)] }),
  ("hip thrust",
   { primary := [("glutes", 0.55)]
     secondary := [("hamstrings", 0.25), ("core", 0.15)] }),
  ("calf raise",
   { primary := [("calves", 0.55)]
     secondary := [] }),
  ("plank",
   { primary := [("core", 0.45)]
     secondary := [("shoulders", 0.20), ("glutes", 0.15)] }),
  ("crunch",
   { primary := [("core", 0.45)]
     secondary := [("hip_flexors", 0.15)] }),
  ("leg raise",
   { primary := [("core", 0.40), ("hip_flexors", 0.35)]
     secondary := [] }),
  ("russian twist",
   { primary := [("obliques", 0.45), ("core", 0.35)]
     secondary := [("hip_flexors", 0.15)] }),
  ("ab wheel",
   { primary := [("core", 0.50)]
     secondary := [("shoulders", 0.20), ("lats", 0.15)] })]

/-- normalize_exercise_name: lower and strip. -/
def normalizeExerciseName (name : String) : String := stripStr (lowerStr name)

/-- get_muscle_activation: direct key match, then the first catalog key
that contains or is contained in the normalized name, else nothing. -/
def getMuscleActivation (exercise : String) : Option MuscleActivationMM :=
  let normalized := normalizeExerciseName exercise
  match exerciseMuscleMap.find? (fun p => p.1 == normalized) with
  | some p => some p.2
  | none =>
    (exerciseMuscleMap.find?
      (fun p => containsStr normalized p.1 || containsStr p.1 normalized)).map Prod.snd

/-- One exercise record handed to calculate_session_activation: name,
duration_sec and reps. -/
structure SessionExercise where
  name : String
  durationSec : ℚ
  reps : ℚ
  deriving DecidableEq

/-- The loop body of calculate_session_activation: skip unmatched names,
otherwise accumulate the weight and add every primary and secondary value
scaled by it into the keys of the activation dict. -/
def sessionStep (st : List (String × ℚ) × ℚ) (ex : SessionExercise) :
    List (String × ℚ) × ℚ :=
  match getMuscleActivation ex.name with
  | none => st
  | some md =>
    let weight := ex.durationSec * (ex.reps / 10)
    let act1 := md.primary.foldl (fun a p => dictAdd a p.1 (p.2 * weight)) st.1
    let act2 := md.secondary.foldl (fun a p => dictAdd a p.1 (p.2 * weight)) act1
    (act2, st.2 + weight)

/-- calculate_session_activation: weighted sums over the 16 muscle
groups; when the total weight is positive and the maximum total is
positive, replace every value by min(value / maximum, 1). -/
def calcSessionActivation (exercises : List SessionExercise) : List (String × ℚ) :=
  let st := exercises.foldl sessionStep
    (muscleGroupsMM.map (fun m => (m, (0 : ℚ))), 0)
  let activation := st.1
  if 0 < st.2 then
    let maxActivation := listMax (activation.map Prod.snd)
    if 0 < maxActivation then
      activation.map (fun p => (p.1, min (p.2 / maxActivation) 1))
    else activation
  else activation

/-- The parts of the analyze_muscle_balance result that the modelled
claims read: the normalized totals and the four category means (the
insight records are presentation data and are omitted). -/
structure BalanceAnalysisMM where
  muscleTotals : List (String × ℚ)
  categoryBalance : List (String × ℚ)
  deriving DecidableEq

/-- The computation of analyze_muscle_balance past its empty-history
guard: aggregate the sessions into the 16 fixed keys, normalize by the
maximum total (all zero when the maximum is not positive), and take
per-category means. -/
def analyzeMuscleBalanceCore (history : List (List (String × ℚ))) :
    BalanceAnalysisMM :=
  let total := history.foldl
    (fun t session => session.foldl (fun t2 p => dictAdd t2 p.1 p.2) t)
    (muscleGroupsMM.map (fun m => (m, (0 : ℚ))))
  let maxVal := listMax (total.map Prod.snd)
  let normalized := total.map
    (fun p => (p.1, if 0 < maxVal then p.2 / maxVal else 0))
  let catMean := fun (ms : List String) =>
    (ms.map (fun m => dictGetD normalized m 0)).sum / (ms.length : ℚ)
  { muscleTotals := normalized
    categoryBalance :=
      [("push", catMean pushMusclesMM), ("pull", catMean pullMusclesMM),
       ("legs", catMean legMusclesMM), ("core", catMean coreMusclesMM)] }

/-- analyze_muscle_balance: an empty history returns the no_data record,
modelled as none; otherwise the analyzed result. -/
def analyzeMuscleBalance (history : List (List (String × ℚ))) :
    Option BalanceAnalysisMM :=
  if history.isEmpty then none else some (analyzeMuscleBalanceCore history)

/-! ### Helper lemmas -/

theorem le_foldl_max (l : List ℚ) (b : ℚ) : b ≤ l.foldl max b := by
  induction l generalizing b with
  | nil => exact le_refl b
  | cons a t ih => exact le_trans (le_max_left b a) (ih (max b a))

theorem mem_le_foldl_max (l : List ℚ) (b x : ℚ) (hx : x ∈ l) : x ≤ l.foldl max b := by
  induction l generalizing b with
  | nil => cases hx
  | cons a t ih =>
    rcases List.mem_cons.mp hx with h | h
    · subst h
      exact le_trans (le_max_right b x) (le_foldl_max t (max b x))
    · exact ih (max b a) h

theorem mem_le_listMax (l : List ℚ) (x : ℚ) (hx : x ∈ l) : x ≤ listMax l := by
  cases l with
  | nil => cases hx
  | cons a t =>
    rcases List.mem_cons.mp hx with h | h
    · subst h
      exact le_foldl_max t x
    · exact mem_le_foldl_max t a x h

theorem dictAdd_nonneg (t : List (String × ℚ)) (k : String) (dv : ℚ)
    (ht : ∀ p ∈ t, 0 ≤ p.2) (hdv : 0 ≤ dv) : ∀ p ∈ dictAdd t k dv, 0 ≤ p.2 := by
  intro p hp
  rcases List.mem_map.mp hp with ⟨q, hq, rfl⟩
  by_cases h : q.1 == k
  · simpa [h] using add_nonneg (ht q hq) hdv
  · simpa [h] using ht q hq

theorem dictAdd_comm (t : List (String × ℚ)) (k1 k2 : String) (v1 v2 : ℚ) :
    dictAdd (dictAdd t k1 v1) k2 v2 = dictAdd (dictAdd t k2 v2) k1 v1 := by
  unfold dictAdd
  simp only [List.map_map]
  induction t with
  | nil => rfl
  | cons a l ih =>
    simp only [List.map_cons, List.cons.injEq]
    refine ⟨?_, ih⟩
    by_cases h1 : a.1 == k1 <;> by_cases h2 : a.1 == k2 <;>
      simp [Function.comp, h1, h2] <;> ring

theorem foldlAdd_dictAdd (l : List (String × ℚ)) (w : ℚ) (t : List (String × ℚ))
    (k : String) (v : ℚ) :
    l.foldl (fun t2 p => dictAdd t2 p.1 (p.2 * w)) (dictAdd t k v) =
      dictAdd (l.foldl (fun t2 p => dictAdd t2 p.1 (p.2 * w)) t) k v := by
  induction l generalizing t with
  | nil => rfl
  | cons a l ih =>
    simp only [List.foldl_cons]
    rw [dictAdd_comm t k a.1 v (a.2 * w)]
    exact ih (dictAdd t a.1 (a.2 * w))

theorem foldl_foldl_add_comm (l1 l2 : List (String × ℚ)) (w1 w2 : ℚ) :
    ∀ t, l2.foldl (fun t2 p => dictAdd t2 p.1 (p.2 * w2))
        (l1.foldl (fun t2 p => dictAdd t2 p.1 (p.2 * w1)) t) =
      l1.foldl (fun t2 p => dictAdd t2 p.1 (p.2 * w1))
        (l2.foldl (fun t2 p => dictAdd t2 p.1 (p.2 * w2)) t) := by
  induction l2 with
  | nil => intro t; rfl
  | cons a l ih =>
    intro t
    simp only [List.foldl_cons]
    rw [← foldlAdd_dictAdd l1 w1 t a.1 (a.2 * w2)]
    exact ih (dictAdd t a.1 (a.2 * w2))

theorem addExercise_comm (t : List (String × ℚ)) (e1 e2 : MuscleActivationR) :
    addExercise (addExercise t e1) e2 = addExercise (addExercise t e2) e1 := by
  simp only [addExercise]
  exact foldl_foldl_add_comm e1.activation e2.activation
    (max e1.durationSeconds 30 / 60) (max e2.durationSeconds 30 / 60) t

theorem foldl_perm_of_comm {α β : Type} (f : β → α → β)
    (comm : ∀ b x y, f (f b x) y = f (f b y) x) {l1 l2 : List α}
    (p : l1.Perm l2) : ∀ b, l1.foldl f b = l2.foldl f b := by
  induction p with
  | nil => intro b; rfl
  | cons x _ ih => intro b; simpa using ih (f b x)
  | swap x y l => intro b; simp [comm]
  | trans _ _ ih1 ih2 => intro b; rw [ih1 b, ih2 b]

theorem foldlAdd_nonneg (l : List (String × ℚ)) (w : ℚ) (hw : 0 ≤ w)
    (hl : ∀ p ∈ l, 0 ≤ p.2) :
    ∀ t, (∀ p ∈ t, 0 ≤ p.2) →
      ∀ p ∈ l.foldl (fun t2 q => dictAdd t2 q.1 (q.2 * w)) t, 0 ≤ p.2 := by
  induction l with
  | nil => intro t ht; exact ht
  | cons a l ih =>
    intro t ht
    simp only [List.foldl_cons]
    exact ih (fun p hp => hl p (List.mem_cons_of_mem a hp))
      (dictAdd t a.1 (a.2 * w))
      (dictAdd_nonneg t a.1 (a.2 * w) ht
        (mul_nonneg (hl a (List.mem_cons_self a l)) hw))

theorem initTotals_nonneg (keys : List String) :
    ∀ p ∈ keys.map (fun m => (m, (0 : ℚ))), 0 ≤ p.2 := by
  intro p hp
  rcases List.mem_map.mp hp with ⟨m, _, rfl⟩
  exact le_refl 0

theorem getActivation_none (nm : String) (va : Option String)
    (pm : Option PoseKneeMin) (d : ℚ) (h : findExercise nm = none) :
    getActivation nm va pm d =
      { exerciseName := nm, matchedExercise := "unknown",
        activation := [("unknown", 1)], confidence := 0 } := by
  unfold getActivation
  rw [h]

theorem getActivation_some_activation (nm : String) (va : Option String)
    (pm : Option PoseKneeMin) (d : ℚ) (m : String) (h : findExercise nm = some m) :
    ∃ l, (getActivation nm va pm d).activation = clampActivation l := by
  unfold getActivation
  rw [h]
  exact ⟨_, rfl⟩

theorem clampActivation_bounds (l : List (String × ℚ)) :
    ∀ p ∈ clampActivation l, 0 ≤ p.2 ∧ p.2 ≤ 1 := by
  intro p hp
  rcases List.mem_map.mp hp with ⟨q, _, rfl⟩
  exact ⟨le_max_left 0 _, max_le zero_le_one (min_le_left 1 q.2)⟩

theorem getActivation_bounds (nm : String) (va : Option String)
    (pm : Option PoseKneeMin) (d : ℚ) :
    ∀ p ∈ (getActivation nm va pm d).activation, 0 ≤ p.2 ∧ p.2 ≤ 1 := by
  intro p hp
  cases h : findExercise nm with
  | none =>
    rw [getActivation_none nm va pm d h] at hp
    simp only [List.mem_singleton] at hp
    subst hp
    exact ⟨zero_le_one, le_refl 1⟩
  | some m =>
    rcases getActivation_some_activation nm va pm d m h with ⟨l, hl⟩
    rw [hl] at hp
    exact clampActivation_bounds l p hp

theorem foldl_addExercise_nonneg (exs : List MuscleActivationR)
    (hexs : ∀ e ∈ exs, ∀ p ∈ e.activation, 0 ≤ p.2) :
    ∀ t, (∀ p ∈ t, 0 ≤ p.2) → ∀ p ∈ exs.foldl addExercise t, 0 ≤ p.2 := by
  induction exs with
  | nil => intro t ht; exact ht
  | cons e l ih =>
    intro t ht
    simp only [List.foldl_cons]
    refine ih (fun e2 he2 => hexs e2 (List.mem_cons_of_mem e he2))
      (addExercise t e) ?_
    unfold addExercise
    have hw : (0 : ℚ) ≤ max e.durationSeconds 30 / 60 := by
      have h30 : (0 : ℚ) ≤ max e.durationSeconds 30 :=
        le_trans (by norm_num) (le_max_right e.durationSeconds 30)
      positivity
    exact foldlAdd_nonneg e.activation (max e.durationSeconds 30 / 60) hw
      (hexs e (List.mem_cons_self e l)) t ht

theorem aggregateWorkout_bounds (exs : List MuscleActivationR)
    (hexs : ∀ e ∈ exs, ∀ p ∈ e.activation, 0 ≤ p.2) :
    ∀ p ∈ aggregateWorkout exs true, 0 ≤ p.2 ∧ p.2 ≤ 1 := by
  intro p hp
  unfold aggregateWorkout at hp
  simp only [if_pos] at hp
  have htot : ∀ q ∈ exs.foldl addExercise (muscleKeys.map (fun m => (m, (0 : ℚ)))),
      0 ≤ q.2 :=
    foldl_addExercise_nonneg exs hexs _ (initTotals_nonneg muscleKeys)
  set total := exs.foldl addExercise (muscleKeys.map (fun m => (m, (0 : ℚ)))) with htotal
  by_cases hm : 0 < listMax (total.map Prod.snd)
  · rw [if_pos hm] at hp
    rcases List.mem_map.mp hp with ⟨q, hq, rfl⟩
    constructor
    · exact div_nonneg (htot q hq) (le_of_lt hm)
    · have hle : q.2 ≤ listMax (total.map Prod.snd) :=
        mem_le_listMax _ q.2 (List.mem_map.mpr ⟨q, hq, rfl⟩)
      exact (div_le_one hm).mpr hle
  · rw [if_neg hm] at hp
    refine ⟨htot p hp, ?_⟩
    have hle : p.2 ≤ listMax (total.map Prod.snd) :=
      mem_le_listMax _ p.2 (List.mem_map.mpr ⟨p, hp, rfl⟩)
    have : p.2 ≤ 0 := le_trans hle (le_of_not_lt hm)
    linarith

theorem exerciseMuscleMap_vals_nonneg :
    ∀ q ∈ exerciseMuscleMap,
      (∀ p ∈ q.2.primary, 0 ≤ p.2) ∧ (∀ p ∈ q.2.secondary, 0 ≤ p.2) := by decide!

theorem getMuscleActivation_nonneg (nm : String) (md : MuscleActivationMM)
    (h : getMuscleActivation nm = some md) :
    (∀ p ∈ md.primary, 0 ≤ p.2) ∧ (∀ p ∈ md.secondary, 0 ≤ p.2) := by
  simp only [getMuscleActivation] at h
  cases h1 : exerciseMuscleMap.find? (fun p => p.1 == normalizeExerciseName nm) with
  | some q =>
    rw [h1] at h
    simp only [Option.some.injEq] at h
    subst h
    exact exerciseMuscleMap_vals_nonneg q (List.mem_of_find?_eq_some h1)
  | none =>
    rw [h1] at h
    simp only [Option.map_eq_some'] at h
    rcases h with ⟨q, hq, rfl⟩
    exact exerciseMuscleMap_vals_nonneg q (List.mem_of_find?_eq_some hq)

theorem dictAdd_values_zero (t : List (String × ℚ)) (k : String) (dv : ℚ)
    (ht : ∀ p ∈ t, p.2 = 0) (hdv : dv = 0) : ∀ p ∈ dictAdd t k dv, p.2 = 0 := by
  intro p hp
  rcases List.mem_map.mp hp with ⟨q, hq, rfl⟩
  by_cases h : q.1 == k
  · simp only [h, if_true]
    rw [ht q hq, hdv, add_zero]
  · simp only [h]
    simpa using ht q hq

theorem foldlAdd_zero_values (l : List (String × ℚ)) (w : ℚ) (hw : w = 0) :
    ∀ t, (∀ p ∈ t, p.2 = 0) →
      ∀ p ∈ l.foldl (fun t2 q => dictAdd t2 q.1 (q.2 * w)) t, p.2 = 0 := by
  induction l with
  | nil => intro t ht; exact ht
  | cons a l ih =>
    intro t ht
    simp only [List.foldl_cons]
    exact ih (dictAdd t a.1 (a.2 * w))
      (dictAdd_values_zero t a.1 (a.2 * w) ht (by rw [hw, mul_zero]))

theorem sessionStep_inv (st : List (String × ℚ) × ℚ) (ex : SessionExercise)
    (hd : 0 ≤ ex.durationSec) (hr : 0 ≤ ex.reps)
    (h1 : ∀ p ∈ st.1, 0 ≤ p.2) (h2 : 0 ≤ st.2)
    (h3 : st.2 = 0 → ∀ p ∈ st.1, p.2 = 0) :
    (∀ p ∈ (sessionStep st ex).1, 0 ≤ p.2) ∧ 0 ≤ (sessionStep st ex).2 ∧
      ((sessionStep st ex).2 = 0 → ∀ p ∈ (sessionStep st ex).1, p.2 = 0) := by
  unfold sessionStep
  cases hm : getMuscleActivation ex.name with
  | none => exact ⟨h1, h2, h3⟩
  | some md =>
    have hmd := getMuscleActivation_nonneg ex.name md hm
    have hw : (0 : ℚ) ≤ ex.durationSec * (ex.reps / 10) :=
      mul_nonneg hd (by positivity)
    simp only []
    refine ⟨?_, add_nonneg h2 hw, ?_⟩
    · exact foldlAdd_nonneg md.secondary _ hw hmd.2 _
        (foldlAdd_nonneg md.primary _ hw hmd.1 st.1 h1)
    · intro hz
      have hw0 : ex.durationSec * (ex.reps / 10) = 0 := by linarith
      have hst0 : st.2 = 0 := by linarith
      exact foldlAdd_zero_values md.secondary _ hw0 _
        (foldlAdd_zero_values md.primary _ hw0 st.1 (h3 hst0))

theorem foldl_sessionStep_inv (exs : List SessionExercise)
    (hex : ∀ e ∈ exs, 0 ≤ e.durationSec ∧ 0 ≤ e.reps) :
    ∀ st : List (String × ℚ) × ℚ,
      (∀ p ∈ st.1, 0 ≤ p.2) → 0 ≤ st.2 → (st.2 = 0 → ∀ p ∈ st.1, p.2 = 0) →
      (∀ p ∈ (exs.foldl sessionStep st).1, 0 ≤ p.2) ∧
        0 ≤ (exs.foldl sessionStep st).2 ∧
        ((exs.foldl sessionStep st).2 = 0 →
          ∀ p ∈ (exs.foldl sessionStep st).1, p.2 = 0) := by
  induction exs with
  | nil => intro st h1 h2 h3; exact ⟨h1, h2, h3⟩
  | cons e l ih =>
    intro st h1 h2 h3
    simp only [List.foldl_cons]
    have he := hex e (List.mem_cons_self e l)
    have hstep := sessionStep_inv st e he.1 he.2 h1 h2 h3
    exact ih (fun e2 he2 => hex e2 (List.mem_cons_of_mem e he2))
      (sessionStep st e) hstep.1 hstep.2.1 hstep.2.2

theorem calcSession_bounds (exs : List SessionExercise)
    (hex : ∀ e ∈ exs, 0 ≤ e.durationSec ∧ 0 ≤ e.reps) :
    ∀ p ∈ calcSessionActivation exs, 0 ≤ p.2 ∧ p.2 ≤ 1 := by
  intro p hp
  unfold calcSessionActivation at hp
  have hinit : ∀ q ∈ muscleGroupsMM.map (fun m => (m, (0 : ℚ))), q.2 = 0 := by
    intro q hq
    rcases List.mem_map.mp hq with ⟨m, _, rfl⟩
    rfl
  have hinv := foldl_sessionStep_inv exs hex
    (muscleGroupsMM.map (fun m => (m, (0 : ℚ))), 0)
    (initTotals_nonneg muscleGroupsMM) (le_refl 0) (fun _ => hinit)
  set st := exs.foldl sessionStep (muscleGroupsMM.map (fun m => (m, (0 : ℚ))), 0)
    with hst
  by_cases htw : 0 < st.2
  · rw [if_pos htw] at hp
    by_cases hmax : 0 < listMax (st.1.map Prod.snd)
    · rw [if_pos hmax] at hp
      rcases List.mem_map.mp hp with ⟨q, hq, rfl⟩
      refine ⟨le_min (div_nonneg (hinv.1 q hq) (le_of_lt hmax)) zero_le_one, ?_⟩
      exact min_le_right _ 1
    · rw [if_neg hmax] at hp
      refine ⟨hinv.1 p hp, ?_⟩
      have hle : p.2 ≤ listMax (st.1.map Prod.snd) :=
        mem_le_listMax _ p.2 (List.mem_map.mpr ⟨p, hp, rfl⟩)
      have : p.2 ≤ 0 := le_trans hle (le_of_not_lt hmax)
      linarith
  · rw [if_neg htw] at hp
    have hz : st.2 = 0 := le_antisymm (le_of_not_lt htw) hinv.2.1
    have := hinv.2.2 hz p hp
    rw [this]
    exact ⟨le_refl 0, zero_le_one⟩

theorem repStep_inv (fps thHigh thLow : ℚ) (minFrames : ℤ) (s : RepCountState)
    (iv : Nat × ℚ) (h1 : 0 < s.repStart → 1 ≤ s.reps)
    (h2 : s.durs.length ≤ s.reps - 1) :
    (0 < (repStep fps thHigh thLow minFrames s iv).repStart →
        1 ≤ (repStep fps thHigh thLow minFrames s iv).reps) ∧
      (repStep fps thHigh thLow minFrames s iv).durs.length ≤
        (repStep fps thHigh thLow minFrames s iv).reps - 1 := by
  unfold repStep
  split_ifs with hc hh hrs hl
  · exact ⟨h1, h2⟩
  · have hge := h1 hrs
    constructor
    · intro _
      show 1 ≤ s.reps + 1
      omega
    · show (s.durs ++ [((iv.1 : ℚ) - (s.repStart : ℚ)) / fps]).length ≤ (s.reps + 1) - 1
      rw [List.length_append]
      simp only [List.length_singleton]
      omega
  · constructor
    · intro _
      show 1 ≤ s.reps + 1
      omega
    · show s.durs.length ≤ (s.reps + 1) - 1
      omega
  · exact ⟨h1, h2⟩
  · exact ⟨h1, h2⟩

theorem foldl_repStep_inv (l : List (Nat × ℚ)) (fps thHigh thLow : ℚ)
    (minFrames : ℤ) :
    ∀ s : RepCountState, (0 < s.repStart → 1 ≤ s.reps) →
      s.durs.length ≤ s.reps - 1 →
      (0 < (l.foldl (repStep fps thHigh thLow minFrames) s).repStart →
          1 ≤ (l.foldl (repStep fps thHigh thLow minFrames) s).reps) ∧
        (l.foldl (repStep fps thHigh thLow minFrames) s).durs.length ≤
          (l.foldl (repStep fps thHigh thLow minFrames) s).reps - 1 := by
  induction l with
  | nil => intro s h1 h2; exact ⟨h1, h2⟩
  | cons a l ih =>
    intro s h1 h2
    simp only [List.foldl_cons]
    have hstep := repStep_inv fps thHigh thLow minFrames s a h1 h2
    exact ih (repStep fps thHigh thLow minFrames s a) hstep.1 hstep.2

/-- Claim C4: on the synthetic triangle series oscillating between 60 and
170 degrees with a 2 second period, sampled at 30 fps for 20 seconds (600
samples), both rep counters (pose_service_yolo.py and pose_service.py)
called with fps 30 return a rep count between 9 and 11; both in fact
return exactly 10. -/
theorem c4_synthetic_reps :
    9 ≤ (countReps syntheticSeries 30 0.7 0.3 1).1 ∧
      (countReps syntheticSeries 30 0.7 0.3 1).1 ≤ 11 ∧
      9 ≤ countRepsMP syntheticSeries 30 ∧ countRepsMP syntheticSeries 30 ≤ 11 := by
  have h1 : (countReps syntheticSeries 30 0.7 0.3 1).1 = 10 := by decide!
  have h2 : countRepsMP syntheticSeries 30 = 10 := by decide!
  omega

/-- Claim C5 (amended): the pose_service_yolo.py rep counter returns zero
reps and no durations for every series shorter than 10 samples, and both
rep counters return zero reps for every series whose range is below 20
degrees; the pose_service.py counter has no minimum-sample guard. -/
theorem c5_guards (s : List ℚ) (fps : ℚ) :
    (s.length < 10 → countReps s fps 0.7 0.3 1 = (0, [])) ∧
      (listMax s - listMin s < 20 →
        (countReps s fps 0.7 0.3 1).1 = 0 ∧ countRepsMP s fps = 0) := by
  constructor
  · intro h
    unfold countReps
    rw [if_pos h]
  · intro h
    constructor
    · unfold countReps
      by_cases hlen : s.length < 10
      · rw [if_pos hlen]
      · rw [if_neg hlen, if_pos h]
    · unfold countRepsMP
      by_cases hemp : s.isEmpty
      · rw [if_pos hemp]
      · rw [if_neg hemp, if_pos h]

/-- Witness for C5 at the three-sample series 5, 6, 7 with fps 30: both
guards fire and both rep counts are zero. -/
theorem c5_guards_witness :
    countReps [5, 6, 7] 30 0.7 0.3 1 = (0, []) ∧ countRepsMP [5, 6, 7] 30 = 0 :=
  ⟨(c5_guards [5, 6, 7] 30).1 (by decide),
   ((c5_guards [5, 6, 7] 30).2 (by decide!)).2⟩

/-- Counterexample for C5 as stated: the five-sample series 0, 100, 0,
100, 0 (fewer than 10 samples) makes the pose_service.py rep counter with
fps 1 return 2 rather than 0. -/
theorem c5_counterexample :
    ([(0 : ℚ), 100, 0, 100, 0].length < 10) ∧
      countRepsMP [0, 100, 0, 100, 0] 1 = 2 :=
  ⟨by decide, by decide!⟩

/-- Claim C10: the pose_service_yolo.py rep counter records at most
rep_count - 1 inter-rep durations (the first counted rep records none),
so the tempo consistency computed from those durations is exactly 1
whenever the rep count is at most 2. -/
theorem c10_durations_bound (hist : List ℚ) (fps : ℚ) :
    (countReps hist fps 0.7 0.3 1).2.length ≤ (countReps hist fps 0.7 0.3 1).1 - 1 ∧
      ((countReps hist fps 0.7 0.3 1).1 ≤ 2 →
        tempoConsistency (countReps hist fps 0.7 0.3 1).2 = 1) := by
  have hmain : (countReps hist fps 0.7 0.3 1).2.length ≤
      (countReps hist fps 0.7 0.3 1).1 - 1 := by
    unfold countReps
    by_cases hlen : hist.length < 10
    · rw [if_pos hlen]
      exact Nat.le_refl 0
    · rw [if_neg hlen]
      by_cases hflat : listMax hist - listMin hist < 20
      · rw [if_pos hflat]
        exact Nat.le_refl 0
      · rw [if_neg hflat]
        exact (foldl_repStep_inv _ _ _ _ _ ⟨0, [], false, 0, 0⟩
          (fun h => absurd h (by decide)) (Nat.le_refl 0)).2
  refine ⟨hmain, fun hr => ?_⟩
  have hlen : (countReps hist fps 0.7 0.3 1).2.length ≤ 1 := by omega
  unfold tempoConsistency
  rw [if_neg (by omega)]

/-- Witness for C10 at the three-sample series 1, 2, 3 with fps 30: the
rep count is 0 and the tempo consistency of the recorded durations is 1. -/
theorem c10_durations_bound_witness :
    tempoConsistency (countReps [1, 2, 3] 30 0.7 0.3 1).2 = 1 :=
  (c10_durations_bound [1, 2, 3] 30).2 (by decide!)

/-- Claim C8 (amended): with at least two recorded durations the tempo
consistency equals 1 - std / (mean + 1e-8) clamped to [0, 1] (the source
adds 1e-8 to the denominator; the claim omitted it), and with fewer than
two recorded durations it equals exactly 1. -/
theorem c8_tempo_formula (l : List ℚ) :
    (1 < l.length →
      tempoConsistency l =
        max 0 (min 1 (1 - stdPop l / ((listMean l : ℝ) + 1 / 100000000)))) ∧
      (l.length ≤ 1 → tempoConsistency l = 1) := by
  constructor
  · intro h
    unfold tempoConsistency
    rw [if_pos h]
  · intro h
    unfold tempoConsistency
    rw [if_neg (by omega)]

/-- Witness for C8 at the duration lists [2, 4] and []. -/
theorem c8_tempo_formula_witness :
    tempoConsistency [2, 4] =
        max 0 (min 1 (1 - stdPop [2, 4] / ((listMean [2, 4] : ℝ) + 1 / 100000000))) ∧
      tempoConsistency [] = 1 :=
  ⟨(c8_tempo_formula [2, 4]).1 (by norm_num),
   (c8_tempo_formula []).2 (by norm_num)⟩

/-- Counterexample for C8 as stated: for the durations [1, 3] (mean 2,
population std 1) the source value 1 - 1/(2 + 1e-8) differs from the
claimed 1 - std/mean = 1/2. -/
theorem c8_counterexample : tempoConsistency [1, 3] ≠ tempoSpecClaim [1, 3] := by
  have hv : variancePop [1, 3] = 1 := by
    norm_num [variancePop, listMean]
  have hs : stdPop [1, 3] = 1 := by
    rw [stdPop, hv]
    norm_num
  have hm : listMean [1, 3] = 2 := by norm_num [listMean]
  unfold tempoConsistency tempoSpecClaim
  rw [if_pos (by norm_num), if_pos (by norm_num), hs, hm]
  have e1 : (1 : ℝ) - 1 / (((2 : ℚ) : ℝ) + 1 / 100000000) = 100000001 / 200000001 := by
    norm_num
  have e2 : (1 : ℝ) - 1 / ((2 : ℚ) : ℝ) = 1 / 2 := by norm_num
  rw [e1, e2]
  rw [min_eq_right (by norm_num), min_eq_right (by norm_num),
    max_eq_right (by norm_num), max_eq_right (by norm_num)]
  norm_num

/-- Claim C3 (amended): the pose_service_yolo.py quality score equals the
clamp to [0.5, 1.5] of 1 plus the knee ROM delta (+0.2 below 80, +0.1
below 95, -0.2 above 115 for squat or lunge names; the claim omitted the
+0.1 band), the elbow delta (+0.1 above 165, -0.15 below 140 for press or
curl names), the symmetry delta (+0.1 above 0.9, -0.15 below 0.7) and the
tempo delta (+0.05 above 0.8, -0.1 below 0.5); in particular the score
always lies in [0.5, 1.5]. -/
theorem c3_quality_formula (nm : String) (mins maxs : List (String × ℚ))
    (sym tempo : ℚ) :
    qualityScore nm mins maxs sym tempo = qualityScoreSpec nm mins maxs sym tempo ∧
      0.5 ≤ qualityScore nm mins maxs sym tempo ∧
      qualityScore nm mins maxs sym tempo ≤ 1.5 := by
  have hknee : ∀ (sq : Bool) (K : ℚ),
      (if sq then
          if K < 80 then (1 : ℚ) + 0.2 else if K < 95 then 1 + 0.1
          else if 115 < K then 1 - 0.2 else 1
        else 1) = 1 + romKneeDelta sq K := by
    intro sq K
    unfold romKneeDelta
    split_ifs <;> norm_num
  have helbow : ∀ (s : ℚ) (pr : Bool) (E : ℚ),
      (if pr then
          if 165 < E then s + 0.1 else if E < 140 then s - 0.15 else s
        else s) = s + romElbowDelta pr E := by
    intro s pr E
    unfold romElbowDelta
    split_ifs <;> ring
  have hsym : ∀ (s S : ℚ),
      (if 0.9 < S then s + 0.1 else if S < 0.7 then s - 0.15 else s) =
        s + symmetryDelta S := by
    intro s S
    unfold symmetryDelta
    split_ifs <;> ring
  have htempo : ∀ (s T : ℚ),
      (if 0.8 < T then s + 0.05 else if T < 0.5 then s - 0.1 else s) =
        s + tempoDelta T := by
    intro s T
    unfold tempoDelta
    split_ifs <;> ring
  refine ⟨?_, ?_, ?_⟩
  · show (let s0 : ℚ := 1
      let s1 := if containsStr (lowerStr nm) "squat" || containsStr (lowerStr nm) "lunge" then
          if (dictGetD mins "left_knee" 180 + dictGetD mins "right_knee" 180) / 2 < 80 then
            s0 + 0.2
          else if (dictGetD mins "left_knee" 180 + dictGetD mins "right_knee" 180) / 2 < 95 then
            s0 + 0.1
          else if 115 < (dictGetD mins "left_knee" 180 + dictGetD mins "right_knee" 180) / 2 then
            s0 - 0.2
          else s0
        else s0
      let s2 := if containsStr (lowerStr nm) "press" || containsStr (lowerStr nm) "curl" then
          if 165 < (dictGetD maxs "left_elbow" 0 + dictGetD maxs "right_elbow" 0) / 2 then
            s1 + 0.1
          else if (dictGetD maxs "left_elbow" 0 + dictGetD maxs "right_elbow" 0) / 2 < 140 then
            s1 - 0.15
          else s1
        else s1
      let s3 := if 0.9 < sym then s2 + 0.1 else if sym < 0.7 then s2 - 0.15 else s2
      let s4 := if 0.8 < tempo then s3 + 0.05 else if tempo < 0.5 then s3 - 0.1 else s3
      max 0.5 (min 1.5 s4)) =
      max 0.5 (min 1.5
        (1 + romKneeDelta
            (containsStr (lowerStr nm) "squat" || containsStr (lowerStr nm) "lunge")
            ((dictGetD mins "left_knee" 180 + dictGetD mins "right_knee" 180) / 2)
          + romElbowDelta
            (containsStr (lowerStr nm) "press" || containsStr (lowerStr nm) "curl")
            ((dictGetD maxs "left_elbow" 0 + dictGetD maxs "right_elbow" 0) / 2)
          + symmetryDelta sym + tempoDelta tempo))
    simp only [hknee, helbow, hsym, htempo]
  · show 0.5 ≤ max 0.5 _
    exact le_max_left 0.5 _
  · show max 0.5 (min 1.5 _) ≤ 1.5
    exact max_le (by norm_num) (min_le_left 1.5 _)

/-- Counterexample for C3 as stated: a squat with average minimum knee
angle 85 (between 80 and 95), symmetry 0.8 and tempo 0.6 scores 1.1 in
the source but 1.0 under the deltas the claim lists. -/
theorem c3_counterexample :
    qualityScore "squat" [("left_knee", 85), ("right_knee", 85)] [] 0.8 0.6 = 1.1 ∧
      qualityScoreClaimed "squat" [("left_knee", 85), ("right_knee", 85)] [] 0.8 0.6 = 1 ∧
      qualityScore "squat" [("left_knee", 85), ("right_knee", 85)] [] 0.8 0.6 ≠
        qualityScoreClaimed "squat" [("left_knee", 85), ("right_knee", 85)] [] 0.8 0.6 :=
  ⟨by decide!, by decide!, by decide!⟩

/-- Claim C9: an exercise name the resolver cannot match (no exact alias
hit, no substring containment either way, no shared token with any alias)
makes get_activation return the unknown sentinel with confidence 0 and
activation containing only the unknown key, for every variation,
pose-metrics argument and duration; the total model never raises. -/
theorem c9_unknown_sentinel (nm : String) (va : Option String)
    (pm : Option PoseKneeMin) (d : ℚ) (h : findExercise nm = none) :
    getActivation nm va pm d =
      { exerciseName := nm, matchedExercise := "unknown",
        activation := [("unknown", 1)], confidence := 0 } :=
  getActivation_none nm va pm d h

/-- Witness for C9 at the name zzz_not_an_exercise with a variation, a
pose-metrics argument and a nonzero duration. -/
theorem c9_unknown_sentinel_witness :
    getActivation "zzz_not_an_exercise" (some "wide") (some (some 65)) 12 =
      { exerciseName := "zzz_not_an_exercise", matchedExercise := "unknown",
        activation := [("unknown", 1)], confidence := 0 } :=
  c9_unknown_sentinel "zzz_not_an_exercise" (some "wide") (some (some 65)) 12
    (by decide!)

/-- Claim C1 (amended): every per-exercise activation from get_activation
is in [0, 1]; aggregate_workout of mapper outputs (any names, variations,
pose metrics and durations) yields values in [0, 1]; and
calculate_session_activation yields values in [0, 1] for every input list
with nonnegative durations and reps (the claim held unconditionally, but
a negative duration defeats the one-sided normalization). -/
theorem c1_activation_bounds :
    (∀ (nm : String) (va : Option String) (pm : Option PoseKneeMin) (d : ℚ),
        ∀ p ∈ (getActivation nm va pm d).activation, 0 ≤ p.2 ∧ p.2 ≤ 1) ∧
      (∀ inputs : List (String × Option String × Option PoseKneeMin × ℚ),
        ∀ p ∈ aggregateWorkout
            (inputs.map (fun t => getActivation t.1 t.2.1 t.2.2.1 t.2.2.2)) true,
          0 ≤ p.2 ∧ p.2 ≤ 1) ∧
      (∀ exs : List SessionExercise,
        (∀ e ∈ exs, 0 ≤ e.durationSec ∧ 0 ≤ e.reps) →
        ∀ p ∈ calcSessionActivation exs, 0 ≤ p.2 ∧ p.2 ≤ 1) := by
  refine ⟨getActivation_bounds, ?_, calcSession_bounds⟩
  intro inputs
  apply aggregateWorkout_bounds
  intro e he
  rcases List.mem_map.mp he with ⟨t, _, rfl⟩
  exact fun p hp => (getActivation_bounds t.1 t.2.1 t.2.2.1 t.2.2.2 p hp).1

/-- Witness for C1: the squat activation value for quads, the normalized
workout total for quads, and the normalized session value for quadriceps
are each inside [0, 1]. -/
theorem c1_activation_bounds_witness :
    ((0 : ℚ) ≤ (("quads", (9 / 10 : ℚ))).2 ∧ (("quads", (9 / 10 : ℚ))).2 ≤ 1) ∧
      ((0 : ℚ) ≤ (("quads", (1 : ℚ))).2 ∧ (("quads", (1 : ℚ))).2 ≤ 1) ∧
      ((0 : ℚ) ≤ (("quadriceps", (1 : ℚ))).2 ∧ (("quadriceps", (1 : ℚ))).2 ≤ 1) :=
  ⟨c1_activation_bounds.1 "squat" none none 0 ("quads", 9 / 10) (by decide!),
   c1_activation_bounds.2.1 [("squat", none, none, 0)] ("quads", 1) (by decide!),
   c1_activation_bounds.2.2 [⟨"squat", 60, 10⟩] (by decide!) ("quadriceps", 1)
     (by decide!)⟩

/-- Counterexample for C1 as stated: a single squat with duration_sec -60
and reps 10 makes calculate_session_activation return quadriceps
activation -27, outside [0, 1] (the total weight is negative, so the
normalization branch is skipped and the raw negative sums are returned). -/
theorem c1_counterexample :
    dictGetD (calcSessionActivation [⟨"squat", -60, 10⟩]) "quadriceps" 0 = -27 ∧
      ¬ (0 : ℚ) ≤ dictGetD (calcSessionActivation [⟨"squat", -60, 10⟩]) "quadriceps" 0 := by
  have h : dictGetD (calcSessionActivation [⟨"squat", -60, 10⟩]) "quadriceps" 0 = -27 := by
    decide!
  refine ⟨h, ?_⟩
  rw [h]
  norm_num

theorem sessionStep_comm (st : List (String × ℚ) × ℚ) (e1 e2 : SessionExercise) :
    sessionStep (sessionStep st e1) e2 = sessionStep (sessionStep st e2) e1 := by
  unfold sessionStep
  cases h1 : getMuscleActivation e1.name with
  | none => cases h2 : getMuscleActivation e2.name <;> rfl
  | some md1 =>
    cases h2 : getMuscleActivation e2.name with
    | none => rfl
    | some md2 =>
      dsimp only
      simp only [Prod.mk.injEq]
      constructor
      · rw [foldl_foldl_add_comm md1.secondary md2.primary,
          foldl_foldl_add_comm md1.secondary md2.secondary,
          foldl_foldl_add_comm md1.primary md2.primary,
          foldl_foldl_add_comm md1.primary md2.secondary]
      · ring

/-- Claim C2: both aggregators return exactly the same per-muscle map on
every permutation of their input list: the weighted per-muscle additions
commute and the max-normalization is a function of the summed totals
(aggregate_workout is covered for both normalize flags). -/
theorem c2_aggregation_perm :
    (∀ (l1 l2 : List MuscleActivationR), l1.Perm l2 → ∀ normalize : Bool,
        aggregateWorkout l1 normalize = aggregateWorkout l2 normalize) ∧
      (∀ s1 s2 : List SessionExercise, s1.Perm s2 →
        calcSessionActivation s1 = calcSessionActivation s2) := by
  constructor
  · intro l1 l2 h normalize
    unfold aggregateWorkout
    rw [foldl_perm_of_comm addExercise addExercise_comm h
      (muscleKeys.map (fun m => (m, (0 : ℚ))))]
  · intro s1 s2 h
    unfold calcSessionActivation
    rw [foldl_perm_of_comm sessionStep sessionStep_comm h
      (muscleGroupsMM.map (fun m => (m, (0 : ℚ))), 0)]

/-- Witness for C2: swapping a squat and a bench press changes neither
the normalized workout aggregation nor the session activation. -/
theorem c2_aggregation_perm_witness :
    aggregateWorkout
        [getActivation "squat" none none 0, getActivation "bench press" none none 0]
        true =
      aggregateWorkout
        [getActivation "bench press" none none 0, getActivation "squat" none none 0]
        true ∧
      calcSessionActivation [⟨"squat", 60, 10⟩, ⟨"bench press", 90, 12⟩] =
        calcSessionActivation [⟨"bench press", 90, 12⟩, ⟨"squat", 60, 10⟩] :=
  ⟨c2_aggregation_perm.1 _ _
      (List.Perm.swap (getActivation "bench press" none none 0)
        (getActivation "squat" none none 0) []) true,
   c2_aggregation_perm.2 _ _
      (List.Perm.swap (⟨"bench press", 90, 12⟩ : SessionExercise)
        (⟨"squat", 60, 10⟩ : SessionExercise) [])⟩

/-- Claim C6 (amended): the category totals of
MuscleMapper.analyze_balance are the sums of the member-muscle values,
while analyze_muscle_balance in muscle_map.py divides by the member count
and thus returns the arithmetic mean of the member values of its
normalized totals. -/
theorem c6_category_totals :
    (∀ (totals : List (String × ℚ)) (c : String) (ms : List String),
        (c, ms) ∈ muscleCategories →
        dictGetD (analyzeBalance totals).categoryTotals c 0 =
          (ms.map (fun m => dictGetD totals m 0)).sum) ∧
      (∀ (history : List (List (String × ℚ))) (b : BalanceAnalysisMM),
        analyzeMuscleBalance history = some b →
        ∀ (c : String) (ms : List String),
          (c, ms) ∈ [("push", pushMusclesMM), ("pull", pullMusclesMM),
            ("legs", legMusclesMM), ("core", coreMusclesMM)] →
          dictGetD b.categoryBalance c 0 =
            (ms.map (fun m => dictGetD b.muscleTotals m 0)).sum /
              (ms.length : ℚ)) := by
  constructor
  · intro totals c ms h
    fin_cases h <;> rfl
  · intro history b hb c ms h
    unfold analyzeMuscleBalance at hb
    by_cases hemp : history.isEmpty
    · rw [if_pos hemp] at hb
      cases hb
    · rw [if_neg hemp] at hb
      simp only [Option.some.injEq] at hb
      subst hb
      fin_cases h <;> rfl

/-- Witness for C6 at the totals map with only chest set. -/
theorem c6_category_totals_witness :
    dictGetD (analyzeBalance [("chest", 1)]).categoryTotals "push" 0 =
        ((["chest", "upper_chest", "lower_chest", "front_delts", "side_delts",
          "triceps"].map (fun m => dictGetD [("chest", 1)] m 0)).sum) ∧
      dictGetD (analyzeMuscleBalanceCore [[("chest", 1)]]).categoryBalance "push" 0 =
        ((pushMusclesMM.map (fun m =>
          dictGetD (analyzeMuscleBalanceCore [[("chest", 1)]]).muscleTotals m 0)).sum /
          (pushMusclesMM.length : ℚ)) :=
  ⟨c6_category_totals.1 [("chest", 1)] "push"
      ["chest", "upper_chest", "lower_chest", "front_delts", "side_delts", "triceps"]
      (by decide),
   c6_category_totals.2 [[("chest", 1)]] (analyzeMuscleBalanceCore [[("chest", 1)]])
     rfl "push" pushMusclesMM (by decide)⟩

/-- Counterexample for C6 as stated: on the totals map with only
chest = 1, analyze_balance reports the push category total 1, while the
arithmetic mean of the six push member values is 1/6. -/
theorem c6_counterexample :
    dictGetD (analyzeBalance [("chest", 1)]).categoryTotals "push" 0 = 1 ∧
      ((["chest", "upper_chest", "lower_chest", "front_delts", "side_delts",
        "triceps"].map (fun m => dictGetD [("chest", 1)] m 0)).sum / (6 : ℚ)) = 1 / 6 ∧
      (1 : ℚ) ≠ 1 / 6 :=
  ⟨by decide!, by decide!, by norm_num⟩

/-- Claim C7 (amended): with positive push and pull category totals,
analyze_balance emits the push_dominant flag exactly when push/pull
exceeds 1.5 and the pull_dominant flag exactly when push/pull is below
0.67 (the source threshold; the claim stated 0.667). -/
theorem c7_push_pull_flags (totals : List (String × ℚ))
    (hp : 0 < dictGetD (analyzeBalance totals).categoryTotals "push" 0)
    (hq : 0 < dictGetD (analyzeBalance totals).categoryTotals "pull" 0) :
    ("push_dominant" ∈ (analyzeBalance totals).imbalances ↔
        1.5 < dictGetD (analyzeBalance totals).categoryTotals "push" 0 /
          dictGetD (analyzeBalance totals).categoryTotals "pull" 0) ∧
      ("pull_dominant" ∈ (analyzeBalance totals).imbalances ↔
        dictGetD (analyzeBalance totals).categoryTotals "push" 0 /
          dictGetD (analyzeBalance totals).categoryTotals "pull" 0 < 0.67) := by
  have himb : (analyzeBalance totals).imbalances =
      (if 0 < dictGetD (analyzeBalance totals).categoryTotals "push" 0 ∧
          0 < dictGetD (analyzeBalance totals).categoryTotals "pull" 0 then
        if 1.5 < dictGetD (analyzeBalance totals).categoryTotals "push" 0 /
            dictGetD (analyzeBalance totals).categoryTotals "pull" 0 then
          ["push_dominant"]
        else if dictGetD (analyzeBalance totals).categoryTotals "push" 0 /
            dictGetD (analyzeBalance totals).categoryTotals "pull" 0 < 0.67 then
          ["pull_dominant"]
        else []
      else []) := rfl
  rw [himb, if_pos ⟨hp, hq⟩]
  by_cases h1 : 1.5 < dictGetD (analyzeBalance totals).categoryTotals "push" 0 /
      dictGetD (analyzeBalance totals).categoryTotals "pull" 0
  · rw [if_pos h1]
    constructor
    · simp only [List.mem_singleton, h1, iff_true]
    · simp only [List.mem_singleton]
      constructor
      · intro hbad
        exact absurd hbad (by decide)
      · intro hlt
        exact absurd hlt (by linarith)
  · rw [if_neg h1]
    by_cases h2 : dictGetD (analyzeBalance totals).categoryTotals "push" 0 /
        dictGetD (analyzeBalance totals).categoryTotals "pull" 0 < 0.67
    · rw [if_pos h2]
      constructor
      · simp only [List.mem_singleton]
        constructor
        · intro hbad
          exact absurd hbad (by decide)
        · intro hgt
          exact absurd hgt h1
      · simp only [List.mem_singleton, h2, iff_true]
    · rw [if_neg h2]
      simp only [List.not_mem_nil, false_iff]
      exact ⟨h1, h2⟩

/-- Witness for C7 at the totals map chest 0.9, lats 0.3: push/pull is 3,
so the push_dominant flag is equivalent to 1.5 < 3 and the pull_dominant
flag to 3 < 0.67. -/
theorem c7_push_pull_flags_witness :
    ("push_dominant" ∈ (analyzeBalance [("chest", 0.9), ("lats", 0.3)]).imbalances ↔
        1.5 < dictGetD (analyzeBalance [("chest", 0.9), ("lats", 0.3)]).categoryTotals
            "push" 0 /
          dictGetD (analyzeBalance [("chest", 0.9), ("lats", 0.3)]).categoryTotals
            "pull" 0) ∧
      ("pull_dominant" ∈ (analyzeBalance [("chest", 0.9), ("lats", 0.3)]).imbalances ↔
        dictGetD (analyzeBalance [("chest", 0.9), ("lats", 0.3)]).categoryTotals
            "push" 0 /
          dictGetD (analyzeBalance [("chest", 0.9), ("lats", 0.3)]).categoryTotals
            "pull" 0 < 0.67) :=
  c7_push_pull_flags [("chest", 0.9), ("lats", 0.3)] (by decide!) (by decide!)

/-- Counterexample for C7 as stated: with chest 0.669 and lats 1 the
push/pull quotient is 0.669, not below the claimed cut 0.667, yet the
source emits the pull_dominant flag because its threshold is 0.67. -/
theorem c7_counterexample :
    "pull_dominant" ∈ (analyzeBalance [("chest", 0.669), ("lats", 1)]).imbalances ∧
      ¬ (dictGetD (analyzeBalance [("chest", 0.669), ("lats", 1)]).categoryTotals
            "push" 0 /
          dictGetD (analyzeBalance [("chest", 0.669), ("lats", 1)]).categoryTotals
            "pull" 0 < 0.667) :=
  ⟨by decide!, by decide!⟩

end GymIntel
